import Mathlib

/-!
Shallow embedding of the `data_ingestion` python client library
(`src/data_ingestion/ingestion.py` and `exceptions.py`) together with
theorems checking the specification's claims about it.

The embedding models the pieces of the outside world the library touches:
a filesystem (files and directories keyed by paths), the HTTP response the
`requests` library hands back (status code, text, parsed-JSON view,
`content-disposition` header, raw body), and the YAML documents read by
the upload path.  Each public function of the library becomes a pure Lean
function over these models, translated branch by branch from the source.
-/

namespace DataIngestion

/-! ### String helpers

Structurally recursive models of the python string operations the library
uses (`str.strip`, `str.split`, `in`, slicing); they work on the
underlying character lists, so that concrete runs evaluate inside the
kernel. -/

/-- Whitespace as stripped by python's `str.strip()`. -/
def isSpaceChar (c : Char) : Bool :=
  c == ' ' || c == '\t' || c == '\n' || c == '\r'

/-- Model of `str.strip()`: drop whitespace from both ends. -/
def strTrim (s : String) : String :=
  ⟨((s.data.dropWhile isSpaceChar).reverse.dropWhile isSpaceChar).reverse⟩

/-- A string is empty iff its character list is. -/
def strIsEmpty (s : String) : Bool :=
  s.data.isEmpty

/-- The string starts with the given character. -/
def startsWithChar (c : Char) (s : String) : Bool :=
  match s.data with
  | [] => false
  | x :: _ => x == c

/-- Split a character list at every occurrence of a separator character
(the model of python `str.split(sep)` for a one-character separator). -/
def splitOnCharAux (c : Char) : List Char → List Char → List (List Char)
  | [], acc => [acc.reverse]
  | x :: xs, acc =>
    if x == c then acc.reverse :: splitOnCharAux c xs []
    else splitOnCharAux c xs (x :: acc)

/-- Model of python `s.split(sep)` for a one-character separator. -/
def splitOnChar (c : Char) (s : String) : List String :=
  (splitOnCharAux c s.data []).map (fun l => ⟨l⟩)

/-- Split a character list at the first occurrence of a character:
`some (before, after)`, or `none` when the character does not occur. -/
def splitAtFirstChar (c : Char) : List Char → Option (List Char × List Char)
  | [] => none
  | x :: xs =>
    if x == c then some ([], xs)
    else (splitAtFirstChar c xs).map (fun p => (x :: p.1, p.2))

/-- The first list is a prefix of the second. -/
def charsPrefixOf : List Char → List Char → Bool
  | [], _ => true
  | _ :: _, [] => false
  | p :: ps, t :: ts => p == t && charsPrefixOf ps ts

/-- The characters after the first occurrence of the pattern, or `none`
when the pattern (assumed non-empty) does not occur — the model of the
python `pat in s` test combined with taking what follows the match. -/
def afterFirstSubstr (pat : List Char) : List Char → Option (List Char)
  | [] => none
  | t :: ts =>
    if charsPrefixOf pat (t :: ts) then some ((t :: ts).drop pat.length)
    else afterFirstSubstr pat ts

/-- The characters before the first occurrence of the pattern (the whole
list when the pattern does not occur). -/
def takeUntilSubstr (pat : List Char) : List Char → List Char
  | [] => []
  | t :: ts =>
    if charsPrefixOf pat (t :: ts) then []
    else t :: takeUntilSubstr pat ts

/-- Join path components with `/` (the model of `"/".join(...)` inside
`str(Path(...))`). -/
def renderComponents : List String → String
  | [] => ""
  | [x] => x
  | x :: xs => x ++ "/" ++ renderComponents xs

/-- Model of a `pathlib.Path` / `os.path` path: an absolute-or-relative flag
plus the list of path components.  `Path("data/out.bin")` becomes
`⟨false, ["data", "out.bin"]⟩`; `Path("/home/user")` becomes
`⟨true, ["home", "user"]⟩`. -/
structure FPath where
  absolute : Bool
  components : List String
deriving DecidableEq, Repr

/-- Model of the `/` operator on `pathlib.Path`: append one component. -/
def FPath.join (p : FPath) (c : String) : FPath :=
  ⟨p.absolute, p.components ++ [c]⟩

/-- Model of `Path.parent` (and of `os.path.dirname` for a path with at
least one component): drop the last component. -/
def FPath.parent (p : FPath) : FPath :=
  ⟨p.absolute, p.components.dropLast⟩

/-- Model of `str(path)`: the POSIX rendering of the path. -/
def FPath.render (p : FPath) : String :=
  (if p.absolute then "/" else "") ++ renderComponents p.components

/-- A POSIX path string is absolute exactly when it starts with a slash. -/
def pathStringIsAbsolute (s : String) : Bool :=
  startsWithChar '/' s

/-- Contents of a file in the modelled filesystem.  Text files are carried
as their list of lines (the library only ever reads whole text files and
parses them line-oriented YAML-style); binary files as byte lists. -/
inductive FileContent where
  | text : List String → FileContent
  | bytes : List Nat → FileContent
deriving DecidableEq, Repr

/-- Model of the filesystem state seen through `os.path` / `pathlib`:
an association list of regular files and a list of existing directories. -/
structure FileSystem where
  files : List (FPath × FileContent)
  dirs : List FPath
deriving Repr

/-- Model of `os.path.isfile` (a regular file exists at the path). -/
def FileSystem.isFile (fs : FileSystem) (p : FPath) : Bool :=
  fs.files.any (fun q => decide (q.1 = p))

/-- Model of `Path.is_dir`. -/
def FileSystem.isDir (fs : FileSystem) (p : FPath) : Bool :=
  fs.dirs.any (fun d => decide (d = p))

/-- Model of `os.path.exists`: the path names a file or a directory. -/
def FileSystem.pathExists (fs : FileSystem) (p : FPath) : Bool :=
  fs.isFile p || fs.isDir p

/-- Model of reading a whole file (`open(p).read()` and friends):
`none` when no regular file is at the path. -/
def FileSystem.readFile (fs : FileSystem) (p : FPath) : Option FileContent :=
  (fs.files.find? (fun q => decide (q.1 = p))).map (·.2)

/-- Model of `open(p, "w")`/`open(p, "wb")` followed by writing: replaces
whatever regular file was at the path. -/
def FileSystem.writeFile (fs : FileSystem) (p : FPath) (c : FileContent) : FileSystem :=
  ⟨(p, c) :: fs.files.filter (fun q => decide (q.1 ≠ p)), fs.dirs⟩

/-- The ancestor prefixes of a path, itself included (`/a/b` has ancestors
`/`, `/a`, `/a/b`). -/
def FPath.ancestors (p : FPath) : List FPath :=
  (List.range (p.components.length + 1)).map (fun n => ⟨p.absolute, p.components.take n⟩)

/-- Model of `p.mkdir(parents=True, exist_ok=True)` / `os.makedirs(p,
exist_ok=True)`: the directory and all its ancestors exist afterwards. -/
def FileSystem.mkdirs (fs : FileSystem) (p : FPath) : FileSystem :=
  ⟨fs.files, fs.dirs ++ p.ancestors⟩

/-- JSON values, as returned by `response.json()`. -/
inductive JsonVal where
  | null : JsonVal
  | bool : Bool → JsonVal
  | num : Int → JsonVal
  | str : String → JsonVal
  | arr : List JsonVal → JsonVal
  | obj : List (String × JsonVal) → JsonVal
deriving Repr

/-- Python truthiness of a JSON value (`if not results_json: ...`). -/
def JsonVal.truthy : JsonVal → Bool
  | .null => false
  | .bool b => b
  | .num n => n != 0
  | .str s => !strIsEmpty s
  | .arr xs => !xs.isEmpty
  | .obj kvs => !kvs.isEmpty

/-- The best-effort error payload attached to an `APIError` (upload path):
the parsed JSON body when `response.json()` succeeds, else the raw
`response.text`. -/
inductive ErrDetails where
  | jsonDetails : JsonVal → ErrDetails
  | textDetails : String → ErrDetails
deriving Repr

/-- The exception surface of the library, one constructor per python
exception type the code can raise: `FileNotFoundError`,
`FileConfigurationError`, `APIError` (from `exceptions.py`, carrying
`status_code` and `details`), the raw `requests.exceptions.HTTPError`
(re-raised by `search_file`), `requests.exceptions.RequestException`
(network-level errors), the plain `Exception` raised by `download_file`,
and pandas' `ValueError`. -/
inductive IngestError where
  | fileNotFound : String → IngestError
  | fileConfigurationError : String → IngestError
  | apiError : String → Option Nat → Option ErrDetails → IngestError
  | httpError : Nat → IngestError
  | requestException : String → IngestError
  | genericError : String → IngestError
  | valueError : String → IngestError
deriving Repr

/-- The kind (python class) of an error, for stating which exception type
an operation raises. -/
inductive ErrKind where
  | fileNotFoundK
  | configErrorK
  | apiErrorK
  | httpErrorK
  | requestExceptionK
  | genericErrorK
  | valueErrorK
deriving DecidableEq, Repr

/-- Classify an error by its kind. -/
def IngestError.kind : IngestError → ErrKind
  | .fileNotFound _ => .fileNotFoundK
  | .fileConfigurationError _ => .configErrorK
  | .apiError _ _ _ => .apiErrorK
  | .httpError _ => .httpErrorK
  | .requestException _ => .requestExceptionK
  | .genericError _ => .genericErrorK
  | .valueError _ => .valueErrorK

/-- The kind of error an `Except` result carries, `none` on success. -/
def resultKind {α : Type} : Except IngestError α → Option ErrKind
  | .error e => some e.kind
  | .ok _ => none

/-- Model of the `requests.Response` object surfaced to the library:
status code, `response.text`, the outcome of `response.json()` (`none`
when the body does not parse as JSON, in which case `.json()` raises),
the `content-disposition` header, and the raw body bytes. -/
structure HttpResponse where
  statusCode : Nat
  text : String
  json : Option JsonVal
  contentDisposition : Option String
  body : List Nat
deriving Repr

/-- Model of `response.raise_for_status()`: `requests` raises `HTTPError`
exactly for client errors (400–499) and server errors (500–599). -/
def raiseForStatus (code : Nat) : Bool :=
  400 ≤ code && code < 600

/-- A status code is a 2xx success code. -/
def is2xx (code : Nat) : Bool :=
  200 ≤ code && code < 300

/-! ### YAML documents

A minimal model of `yaml.safe_load` covering the line-oriented
`key: value` mappings this library reads and writes (the metadata files
and the generated template): blank lines and `#` comment lines are
skipped, every other line must be `key: value` with an optional trailing
comment, values are either double-quoted strings or plain scalars kept as
strings, and an empty value is YAML `null`.  Any other line makes the
parse fail, modelling a `yaml.YAMLError`. -/

/-- A scalar YAML value as produced by the model of `yaml.safe_load`. -/
inductive YamlVal where
  | null : YamlVal
  | str : String → YamlVal
deriving DecidableEq, Repr

/-- Python truthiness of a YAML scalar (`metadata.get(k)` used in a
boolean context treats `None` and `""` as false). -/
def YamlVal.truthy : YamlVal → Bool
  | .null => false
  | .str s => !strIsEmpty s

/-- Result of `yaml.safe_load`: `None` for an empty document (which is
not a `dict`), or a mapping. -/
inductive YamlDoc where
  | emptyDoc : YamlDoc
  | mapping : List (String × YamlVal) → YamlDoc
deriving DecidableEq, Repr

/-- Parse the value part of a `key: value` line: a double-quoted string
(anything after the closing quote is a trailing comment), or a plain
scalar truncated at a `#` comment; an empty remainder is `null`. -/
def parseYamlScalar (raw : String) : YamlVal :=
  let v := strTrim raw
  if startsWithChar '"' v then
    YamlVal.str ⟨(v.data.drop 1).takeWhile (fun c => c != '"')⟩
  else
    let t := strTrim ⟨v.data.takeWhile (fun c => c != '#')⟩
    if strIsEmpty t then YamlVal.null else YamlVal.str t

/-- Parse one line of a YAML mapping document.  `none` means the line is
not understood (parse error); `some none` a skipped blank/comment line;
`some (some kv)` a key/value pair. -/
def parseYamlMapLine (line : String) : Option (Option (String × YamlVal)) :=
  let t := strTrim line
  if strIsEmpty t || startsWithChar '#' t then some none
  else
    match splitAtFirstChar ':' t.data with
    | none => none
    | some (key, rest) =>
      let k := strTrim ⟨key⟩
      if strIsEmpty k then none
      else some (some (k, parseYamlScalar ⟨rest⟩))

/-- Model of `yaml.safe_load` on a text file given as its lines.
`Except.error` models a raised `yaml.YAMLError`. -/
def safe_load (lines : List String) : Except String YamlDoc :=
  match lines.mapM parseYamlMapLine with
  | none => .error "could not parse YAML document"
  | some entries =>
    match entries.filterMap id with
    | [] => .ok .emptyDoc
    | kvs => .ok (.mapping kvs)

/-- Model of `dict.get` on a parsed mapping (later duplicate keys win, as
in a python dict). -/
def yamlGet (kvs : List (String × YamlVal)) (k : String) : Option YamlVal :=
  (kvs.reverse.find? (fun p => decide (p.1 = k))).map (·.2)

/-- Python truthiness of `metadata.get(k)`: `None` (missing key) is
falsy. -/
def optTruthy : Option YamlVal → Bool
  | none => false
  | some v => v.truthy

/-! ### `generate_metadata_template` -/

/-- The template text written by `generate_metadata_template`
(`template_content.strip()` from the source), as its list of lines. -/
def template_content : List String :=
  [ "# --- Metadata for the associated data file ---"
  , "# Please fill out the values for each field."
  , "# Required fields are marked. Others are optional."
  , "# Date format should be YYYY-MM-DD."
  , ""
  , "# --- Project & Author (Required) ---"
  , "research_project_id: \"\" # e.g., \"Frequency Sweep\""
  , "author: \"\"            # e.g., \"wkm2109\""
  , ""
  , "# --- Experiment Details (Optional) ---"
  , "experiment_type: \"\"   # e.g., \"Data Calibration\""
  , "date_conducted: \"\"    # e.g., \"2025-01-15\""
  , ""
  , "# --- Descriptive Metadata (Optional) ---"
  , "custom_tags: \"\"       # e.g., \"1.5 mHZ, 2V, simulation, NHP, etc.\"" ]

/-- Outcome of `generate_metadata_template`: the filesystem afterwards and
whether the already-exists warning was logged (the early-return path). -/
structure TemplateResult where
  fs : FileSystem
  warned : Bool
deriving Repr

/-- Model of `generate_metadata_template(filepath, overwrite)`.  When a
file or directory already exists at the path and `overwrite` is false it
only logs a warning and returns; otherwise it creates the parent
directories when the path has a directory part (`os.path.dirname` is
non-empty) and writes the fixed template. -/
def generate_metadata_template (fs : FileSystem) (filepath : FPath)
    (overwrite : Bool) : TemplateResult :=
  if fs.pathExists filepath && !overwrite then
    ⟨fs, true⟩
  else
    let directory := filepath.parent
    let fs1 :=
      if directory.components.isEmpty && !directory.absolute then fs
      else fs.mkdirs directory
    ⟨fs1.writeFile filepath (.text template_content), false⟩

/-! ### `upload_file` -/

/-- The message of the inner `FileConfigurationError` raised when the
metadata mapping misses a required key. -/
def requiredKeysMsg : String :=
  "Metadata YAML is invalid or missing required keys: research_project_id, author."

/-- The wrapping applied by the `except Exception` handler around the
metadata-reading block: every failure there is re-raised as
`FileConfigurationError("Failed to read or parse YAML file: ...")`. -/
def wrapYamlMsg (e : String) : String :=
  "Failed to read or parse YAML file: " ++ e

/-- Model of lines 103–115 of `ingestion.py`: read the metadata file,
`yaml.safe_load` it, and require a mapping with truthy
`research_project_id` and `author`; every failure in the block is
re-wrapped as a `FileConfigurationError`. -/
def validateMetadataContent (c : FileContent) : Except IngestError Unit :=
  match c with
  | .bytes _ => .error (.fileConfigurationError (wrapYamlMsg "could not decode file"))
  | .text lines =>
    match safe_load lines with
    | .error e => .error (.fileConfigurationError (wrapYamlMsg e))
    | .ok .emptyDoc => .error (.fileConfigurationError (wrapYamlMsg requiredKeysMsg))
    | .ok (.mapping kvs) =>
      if optTruthy (yamlGet kvs "research_project_id") && optTruthy (yamlGet kvs "author")
      then .ok ()
      else .error (.fileConfigurationError (wrapYamlMsg requiredKeysMsg))

/-- Read and validate the metadata file (`with open(metadata_file_path,
"r") as f: metadata = yaml.safe_load(f) ...`); an unreadable path (e.g. a
directory) also lands in the `except Exception` wrap. -/
def validateMeta (fs : FileSystem) (p : FPath) : Except IngestError Unit :=
  match fs.readFile p with
  | none => .error (.fileConfigurationError (wrapYamlMsg "could not open metadata file"))
  | some c => validateMetadataContent c

/-- The error payload attached to the `APIError` raised by `upload_file`:
`error_details = response.text`, overwritten by the parsed JSON body when
`response.json()` succeeds. -/
def respErrorDetails (r : HttpResponse) : ErrDetails :=
  match r.json with
  | some j => .jsonDetails j
  | none => .textDetails r.text

/-- Outcome of `upload_file`: the returned JSON (or raised error), how
many HTTP requests were issued, and which file handles were opened and
closed. -/
structure UploadResult where
  result : Except IngestError JsonVal
  networkCalls : Nat
  openedHandles : List FPath
  closedHandles : List FPath
deriving Repr

/-- Model of the `try/except` around `requests.post` (lines 130–155):
a network failure re-raises the `RequestException`; a 4xx/5xx response is
wrapped into `APIError` with the status code and best-effort details; a
passing response has `response.json()` returned (the `json()` failure
being a `RequestException` subclass in `requests`). -/
def uploadRequest (net : Option HttpResponse) : Except IngestError JsonVal × Nat :=
  match net with
  | none => (.error (.requestException "could not connect to API"), 1)
  | some r =>
    if raiseForStatus r.statusCode then
      (.error (.apiError "API returned an error" (some r.statusCode)
        (some (respErrorDetails r))), 1)
    else
      match r.json with
      | some j => (.ok j, 1)
      | none => (.error (.requestException "response body is not JSON"), 1)

/-- Model of `upload_file(data_file_path, metadata_file_path)` against a
filesystem and a network oracle `net` (`none` = the request fails at the
transport level, `some r` = the server answers `r`).  Both existence
checks and the metadata validation happen before any handle is opened or
any request is made; then both files are opened, the request runs, and
the `finally` block closes both handles on every exit path. -/
def upload_file (fs : FileSystem) (dataPath metaPath : FPath)
    (net : Option HttpResponse) : UploadResult :=
  if !fs.pathExists dataPath then
    ⟨.error (.fileNotFound ("Data file not found at: " ++ dataPath.render)), 0, [], []⟩
  else if !fs.pathExists metaPath then
    ⟨.error (.fileNotFound ("Metadata file not found at: " ++ metaPath.render)), 0, [], []⟩
  else
    match validateMeta fs metaPath with
    | .error e => ⟨.error e, 0, [], []⟩
    | .ok _ =>
      let opened := [dataPath, metaPath]
      let step := uploadRequest net
      ⟨step.1, step.2, opened, opened⟩

/-! ### `search_file`

The result table is a model of the `pandas.DataFrame` built from the JSON
array of record objects: the columns are the union of the record keys in
order of first appearance, each row is aligned to the columns with `NaN`
for missing keys.  `pd.to_datetime(col, errors="coerce")` is modelled by
`coerceCell`, with a datetime parse covering the ISO `YYYY-MM-DD` form
the API uses; any cell the parse does not accept becomes the `NaT`
null-date marker instead of failing. -/

/-- A calendar date as produced by the datetime parse. -/
structure Date where
  year : Nat
  month : Nat
  day : Nat
deriving DecidableEq, Repr

/-- The numeric value of a decimal digit character. -/
def digitVal (c : Char) : Option Nat :=
  if c.isDigit then some (c.toNat - 48) else none

/-- Parse a non-empty all-digit string as a natural number. -/
def parseNatDigits (s : String) : Option Nat :=
  if strIsEmpty s then none
  else
    s.data.foldl
      (fun acc c =>
        match acc, digitVal c with
        | some a, some d => some (a * 10 + d)
        | _, _ => none)
      (some 0)

/-- Model of the datetime parse inside `pd.to_datetime` restricted to the
ISO `YYYY-MM-DD` date strings this API traffics in; anything else is
unparsable. -/
def parseIsoDate (s : String) : Option Date :=
  match splitOnChar '-' s with
  | [y, m, d] =>
    if y.data.length == 4 && m.data.length == 2 && d.data.length == 2 then
      match parseNatDigits y, parseNatDigits m, parseNatDigits d with
      | some yn, some mn, some dn =>
        if 1 ≤ mn && mn ≤ 12 && 1 ≤ dn && dn ≤ 31 then some ⟨yn, mn, dn⟩
        else none
      | _, _, _ => none
    else none
  | _ => none

/-- A timestamp value produced by the coercion: parsed from an ISO string
or converted from a numeric epoch value. -/
inductive TsVal where
  | fromIso : Date → TsVal
  | fromEpoch : Int → TsVal
deriving DecidableEq, Repr

/-- A cell of the result table: a raw JSON value, pandas `NaN` (missing
key), a coerced timestamp, or the `NaT` null-date marker. -/
inductive CellVal where
  | val : JsonVal → CellVal
  | nan : CellVal
  | ts : TsVal → CellVal
  | natMarker : CellVal
deriving Repr

/-- The modelled `pandas.DataFrame`: named columns and positionally
aligned rows. -/
structure DataFrame where
  columns : List String
  rows : List (List CellVal)
deriving Repr

/-- The empty DataFrame (`pd.DataFrame()`). -/
def DataFrame.empty : DataFrame := ⟨[], []⟩

/-- The union of the keys of all records, in order of first appearance —
the columns `pd.DataFrame(records)` produces. -/
def collectColumns (records : List (List (String × JsonVal))) : List String :=
  records.foldl
    (fun acc rec =>
      rec.foldl (fun a kv => if a.contains kv.1 then a else a ++ [kv.1]) acc)
    []

/-- Align one record to the column list, `NaN` for a missing key (later
duplicate keys win, as in a python dict / JSON object). -/
def alignRow (columns : List String) (rec : List (String × JsonVal)) : List CellVal :=
  columns.map (fun c =>
    match rec.reverse.find? (fun kv => decide (kv.1 = c)) with
    | some kv => .val kv.2
    | none => .nan)

/-- Model of `pd.DataFrame(results_json)` on a list of record objects. -/
def mkDataFrame (records : List (List (String × JsonVal))) : DataFrame :=
  let cols := collectColumns records
  ⟨cols, records.map (alignRow cols)⟩

/-- The two columns `search_file` coerces to datetimes. -/
def dateColumns : List String := ["date_conducted", "upload_timestamp"]

/-- Model of `pd.to_datetime(x, errors="coerce")` on one cell: an ISO
date string parses to a timestamp, a number converts as an epoch value,
and everything unparsable — including `NaN` and `None` — becomes `NaT`. -/
def coerceCell : CellVal → CellVal
  | .val (.str s) =>
    match parseIsoDate s with
    | some d => .ts (.fromIso d)
    | none => .natMarker
  | .val (.num n) => .ts (.fromEpoch n)
  | .val _ => .natMarker
  | .nan => .natMarker
  | .ts t => .ts t
  | .natMarker => .natMarker

/-- Coerce the cells of one aligned row that sit under one of the two
date columns. -/
def coerceRow (columns : List String) (row : List CellVal) : List CellVal :=
  (columns.zip row).map (fun p => if p.1 ∈ dateColumns then coerceCell p.2 else p.2)

/-- Model of the loop `for col in ["date_conducted", "upload_timestamp"]:
if col in df.columns: df[col] = pd.to_datetime(df[col], errors="coerce")`. -/
def coerceDateColumns (df : DataFrame) : DataFrame :=
  ⟨df.columns, df.rows.map (coerceRow df.columns)⟩

/-- First index of a column name in a column list. -/
def indexOfCol : List String → String → Option Nat
  | [], _ => none
  | x :: xs, c => if x = c then some 0 else (indexOfCol xs c).map (· + 1)

/-- The cell of a DataFrame at a row index and a column name. -/
def DataFrame.cell (df : DataFrame) (ri : Nat) (c : String) : Option CellVal :=
  match indexOfCol df.columns c with
  | none => none
  | some ci =>
    match df.rows[ri]? with
    | none => none
    | some row => row[ci]?

/-- The keyword filters `search_file` accepts; each is optional. -/
structure SearchArgs where
  file_id : Option String
  research_project_id : Option String
  author : Option String
  file_type : Option String
  experiment_type : Option String
  tags_contain : Option String
  date_after : Option String
  date_before : Option String
deriving DecidableEq, Repr

/-- A `search_file` call with every filter omitted. -/
def noFilters : SearchArgs :=
  ⟨none, none, none, none, none, none, none, none⟩

/-- Model of `active_params`: the query parameters actually sent — only
the filters that are not `None`. -/
def activeParams (a : SearchArgs) : List (String × String) :=
  ([ ("file_id", a.file_id)
   , ("research_project_id", a.research_project_id)
   , ("author", a.author)
   , ("file_type", a.file_type)
   , ("experiment_type", a.experiment_type)
   , ("tags_contain", a.tags_contain)
   , ("date_after", a.date_after)
   , ("date_before", a.date_before) ]).filterMap
    (fun p => p.2.map (fun v => (p.1, v)))

/-- View a JSON array as a list of record objects; `none` when some
element is not an object (`pd.DataFrame` would not build a record frame). -/
def toRecords : List JsonVal → Option (List (List (String × JsonVal)))
  | [] => some []
  | .obj kvs :: rest => (toRecords rest).map (kvs :: ·)
  | _ => none

/-- Model of `search_file` against the network oracle.  A transport-level
failure re-raises the `RequestException`; a 4xx/5xx response re-raises
the raw `HTTPError` (after logging) — not the library's `APIError`; a
falsy JSON body (`[]`, `None`, ...) returns the empty DataFrame; else the
record frame is built and the two date columns coerced. -/
def search_file (a : SearchArgs) (net : Option HttpResponse) :
    Except IngestError DataFrame :=
  let _params := activeParams a
  match net with
  | none => .error (.requestException "could not connect to API")
  | some r =>
    if raiseForStatus r.statusCode then
      .error (.httpError r.statusCode)
    else
      match r.json with
      | none => .error (.requestException "response body is not JSON")
      | some j =>
        if !j.truthy then .ok DataFrame.empty
        else
          match j with
          | .arr items =>
            match toRecords items with
            | some recs => .ok (coerceDateColumns (mkDataFrame recs))
            | none => .error (.valueError "DataFrame constructor failed")
          | _ => .error (.valueError "DataFrame constructor failed")

/-! ### `download_file` -/

/-- Model of python `s.strip('"')`: remove double quotes from both ends. -/
def stripQuotes (s : String) : String :=
  ⟨((s.data.dropWhile (fun c => c == '"')).reverse.dropWhile
      (fun c => c == '"')).reverse⟩

/-- Model of `content_disp.split("filename=")[1].strip('"')`, applicable
only when `"filename=" in content_disp`: the characters between the first
occurrence of `filename=` and the next one (or the end), quote-stripped. -/
def filenameFromDisposition (cd : String) : Option String :=
  match afterFirstSubstr "filename=".data cd.data with
  | some rest => some (stripQuotes ⟨takeUntilSubstr "filename=".data rest⟩)
  | none => none

/-- Destination-filename resolution inside `download_file` when the
destination is an existing directory: the `content-disposition` filename
when the header is truthy and contains `filename=`, else
`{file_id}.dat`. -/
def resolveFilename (r : HttpResponse) (final_dest : FPath) (file_id : String) : FPath :=
  match r.contentDisposition with
  | some cd =>
    if strIsEmpty cd then final_dest.join (file_id ++ ".dat")
    else
      match filenameFromDisposition cd with
      | some name => final_dest.join name
      | none => final_dest.join (file_id ++ ".dat")
  | none => final_dest.join (file_id ++ ".dat")

/-- The detail string extracted for the download error message:
`response.json().get("detail", response.text)`, falling back to the raw
text when the body is not JSON, is not an object, or the detail is not a
string. -/
def downloadDetail (r : HttpResponse) : String :=
  match r.json with
  | some (.obj kvs) =>
    match kvs.reverse.find? (fun p => decide (p.1 = "detail")) with
    | some (_, JsonVal.str s) => s
    | _ => r.text
  | _ => r.text

/-- The message of the generic `Exception` raised by `download_file` on a
4xx/5xx response. -/
def downloadErrorMessage (r : HttpResponse) : String :=
  "API returned an error (Status " ++ toString r.statusCode ++ "): " ++ downloadDetail r

/-- Outcome of `download_file`: the returned path string (or raised
error) and the filesystem afterwards. -/
structure DownloadResult where
  result : Except IngestError String
  fs : FileSystem
deriving Repr

/-- Model of `download_file(file_id, destination_path)` against a
filesystem, the user's home directory, and the network oracle.  With no
destination the target defaults to `home / "Downloads"`; the save
directory (the target itself when it is an existing directory, else its
parent) is created before the request; a 4xx/5xx response raises a plain
`Exception` before the destination file is opened; otherwise the body is
streamed into the resolved save path, which is returned via `str(...)`. -/
def download_file (fs : FileSystem) (home : FPath) (file_id : String)
    (destination_path : Option FPath) (net : Option HttpResponse) : DownloadResult :=
  let final_dest_path :=
    match destination_path with
    | none => home.join "Downloads"
    | some p => p
  let save_directory :=
    if fs.isDir final_dest_path then final_dest_path else final_dest_path.parent
  let fs1 := fs.mkdirs save_directory
  match net with
  | none => ⟨.error (.requestException "could not connect to API"), fs1⟩
  | some r =>
    if raiseForStatus r.statusCode then
      ⟨.error (.genericError (downloadErrorMessage r)), fs1⟩
    else
      let final_save_path :=
        if fs1.isDir final_dest_path then resolveFilename r final_dest_path file_id
        else final_dest_path
      ⟨.ok final_save_path.render, fs1.writeFile final_save_path (.bytes r.body)⟩

/-! ### Helper lemmas about the filesystem model -/

/-- Writing a file and reading it back at the same path yields the
written content. -/
theorem readFile_writeFile (fs : FileSystem) (p : FPath) (c : FileContent) :
    (fs.writeFile p c).readFile p = some c := by
  simp [FileSystem.writeFile, FileSystem.readFile, List.find?]

/-- After writing a file, a regular file exists at the path. -/
theorem isFile_writeFile (fs : FileSystem) (p : FPath) (c : FileContent) :
    (fs.writeFile p c).isFile p = true := by
  simp [FileSystem.writeFile, FileSystem.isFile]

/-- After writing a file, the path exists. -/
theorem pathExists_writeFile (fs : FileSystem) (p : FPath) (c : FileContent) :
    (fs.writeFile p c).pathExists p = true := by
  simp [FileSystem.pathExists, isFile_writeFile]

/-- `mkdirs` never touches regular files. -/
theorem files_mkdirs (fs : FileSystem) (p : FPath) :
    (fs.mkdirs p).files = fs.files := rfl

/-- `mkdirs` on a path strictly shorter than `q` cannot make `q` a
directory. -/
theorem isDir_mkdirs_of_shorter (fs : FileSystem) (p q : FPath)
    (hlen : p.components.length < q.components.length)
    (hq : fs.isDir q = false) : (fs.mkdirs p).isDir q = false := by
  unfold FileSystem.mkdirs FileSystem.isDir at *
  rw [List.any_append]
  rw [hq]
  rw [Bool.false_or]
  rw [List.any_eq_false]
  intro d hd
  simp only [FPath.ancestors, List.mem_map, List.mem_range] at hd
  obtain ⟨n, _, rfl⟩ := hd
  simp only [decide_eq_true_eq]
  intro hEq
  have hcomps := congrArg (fun x => x.components.length) hEq
  simp only [List.length_take] at hcomps
  have hmin : min n p.components.length ≤ p.components.length := Nat.min_le_right _ _
  omega

/-- The parent of `p.join c` is `p` again. -/
theorem parent_join (p : FPath) (c : String) : (p.join c).parent = p := by
  simp [FPath.join, FPath.parent]

/-- Joining one component lengthens the component list by one. -/
theorem length_join (p : FPath) (c : String) :
    (p.join c).components.length = p.components.length + 1 := by
  simp [FPath.join]

/-! ### Concrete fixtures used by witnesses and counterexamples -/

/-- The root directory `/`. -/
def rootDir : FPath := ⟨true, []⟩

/-- The user's home directory `/home/user`. -/
def homeDir : FPath := ⟨true, ["home", "user"]⟩

/-- A filesystem holding only the directories `/`, `/home` and
`/home/user`. -/
def fsHome : FileSystem := ⟨[], [rootDir, ⟨true, ["home"]⟩, homeDir]⟩

/-- The data file path `/data/a.bin`. -/
def dataBin : FPath := ⟨true, ["data", "a.bin"]⟩

/-- The metadata file path `/data/m.yaml`. -/
def metaYaml : FPath := ⟨true, ["data", "m.yaml"]⟩

/-- A well-formed metadata file: both required keys non-empty. -/
def validMetaLines : List String :=
  ["research_project_id: proj", "author: bob"]

/-- A filesystem with a data file and a valid metadata file. -/
def fsUpload : FileSystem :=
  ⟨[(dataBin, .bytes [0, 1]), (metaYaml, .text validMetaLines)],
   [rootDir, ⟨true, ["data"]⟩]⟩

/-- A filesystem with only the data file. -/
def fsData : FileSystem :=
  ⟨[(dataBin, .bytes [0, 1])], [rootDir, ⟨true, ["data"]⟩]⟩

/-- A successful JSON response (status 200). -/
def resp200 : HttpResponse :=
  ⟨200, "", some (.obj [("id", .str "abc")]), none, [7, 8]⟩

/-- A 304 Not Modified response with a JSON body, as a backend test
double may return: not a 2xx status, yet `raise_for_status` passes. -/
def resp304 : HttpResponse :=
  ⟨304, "", some (.obj [("id", .str "abc")]), none, []⟩

/-- A 304 Not Modified response whose JSON body is the empty array. -/
def resp304Search : HttpResponse :=
  ⟨304, "", some (.arr []), none, []⟩

/-- A 304 Not Modified response with a non-JSON body. -/
def resp304Body : HttpResponse := ⟨304, "", none, none, [1, 2, 3]⟩

/-- The spec's simulated 422 response with body carrying detail
`"bad file"`. -/
def resp422 : HttpResponse :=
  ⟨422, "error text", some (.obj [("detail", .str "bad file")]), none, []⟩

/-- A 404 error response. -/
def resp404 : HttpResponse :=
  ⟨404, "not found", some (.obj [("detail", .str "File not found")]), none, []⟩

/-- A relative destination path `data/out.bin`. -/
def relDest : FPath := ⟨false, ["data", "out.bin"]⟩

/-! ### Claim theorems -/

/-- C1: evaluation of the code at the failing input.  Calling
`download_file` with the relative destination `data/out.bin` and a
successful response returns the string `"data/out.bin"` — the destination
exactly as supplied, which is not an absolute path — even though the
download succeeded and the file was written; the documented contract
(return the final absolute path) is violated. -/
theorem download_relative_destination_returns_relative_path :
    (download_file fsHome homeDir "abc" (some relDest) (some resp200)).result
        = Except.ok "data/out.bin" ∧
    pathStringIsAbsolute "data/out.bin" = false ∧
    (download_file fsHome homeDir "abc" (some relDest) (some resp200)).fs.isFile relDest
        = true :=
  ⟨rfl, rfl, rfl⟩

/-- C2 counterexample: a 304 response is not a 2xx response, yet
`search_file` raises nothing at all — `raise_for_status` only raises for
4xx/5xx — so the claim's "for every non-2xx response, search_file
re-raises the raw HTTPError" is false as stated. -/
theorem search_non2xx_without_http_error :
    is2xx resp304Search.statusCode = false ∧
    resultKind (search_file noFilters (some resp304Search)) = none :=
  ⟨rfl, rfl⟩

/-- C2 (amended to 4xx/5xx): whenever the response status makes
`raise_for_status` raise, `search_file` re-raises the raw `HTTPError`
itself, while `upload_file` in the same situation wraps it into the typed
`APIError`. -/
theorem search_reraises_raw_http_error
    (args : SearchArgs) (fs : FileSystem) (dp mp : FPath) (r : HttpResponse)
    (hs : raiseForStatus r.statusCode = true)
    (hd : fs.pathExists dp = true) (hm : fs.pathExists mp = true)
    (hv : validateMeta fs mp = .ok ()) :
    search_file args (some r) = .error (.httpError r.statusCode) ∧
    (upload_file fs dp mp (some r)).result =
      .error (.apiError "API returned an error" (some r.statusCode)
        (some (respErrorDetails r))) := by
  constructor
  · simp [search_file, hs]
  · simp [upload_file, hd, hm, hv, uploadRequest, hs]

/-- C2 witness: at a concrete 404 response against concrete files, search
raises the raw `HTTPError 404` and upload raises the typed `APIError`. -/
theorem search_reraises_raw_http_error_witness :
    search_file noFilters (some resp404) = .error (.httpError 404) ∧
    (upload_file fsUpload dataBin metaYaml (some resp404)).result =
      .error (.apiError "API returned an error" (some 404)
        (some (respErrorDetails resp404))) :=
  search_reraises_raw_http_error noFilters fsUpload dataBin metaYaml resp404
    rfl rfl rfl rfl

/-- C3: when the data file or the metadata file does not exist,
`upload_file` fails with the file-not-found kind — which is distinct from
the configuration-error kind — and issues no network request. -/
theorem upload_missing_input_no_network
    (fs : FileSystem) (dp mp : FPath) (net : Option HttpResponse)
    (h : fs.pathExists dp = false ∨ fs.pathExists mp = false) :
    resultKind (upload_file fs dp mp net).result = some ErrKind.fileNotFoundK ∧
    (upload_file fs dp mp net).networkCalls = 0 ∧
    ErrKind.fileNotFoundK ≠ ErrKind.configErrorK := by
  refine ⟨?_, ?_, by decide⟩ <;>
  · rcases h with h | h
    · simp [upload_file, h, resultKind, IngestError.kind]
    · by_cases hd : fs.pathExists dp = true
      · simp [upload_file, hd, h, resultKind, IngestError.kind]
      · rw [Bool.not_eq_true] at hd
        simp [upload_file, hd, resultKind, IngestError.kind]

/-- C3 witness: on an empty filesystem both files are missing; upload
fails with the file-not-found kind and zero network calls. -/
theorem upload_missing_input_no_network_witness :
    resultKind (upload_file ⟨[], []⟩ dataBin metaYaml (some resp200)).result
        = some ErrKind.fileNotFoundK ∧
    (upload_file ⟨[], []⟩ dataBin metaYaml (some resp200)).networkCalls = 0 ∧
    ErrKind.fileNotFoundK ≠ ErrKind.configErrorK :=
  upload_missing_input_no_network ⟨[], []⟩ dataBin metaYaml (some resp200)
    (Or.inl rfl)

/-- C4 counterexample: a 304 response is not a 2xx response, yet
`upload_file` raises no `APIError` — it returns the parsed body, because
`raise_for_status` only raises for 4xx/5xx — so "every non-2xx status
raises a typed API error" is false as stated. -/
theorem upload_non2xx_without_api_error :
    is2xx resp304.statusCode = false ∧
    resultKind (upload_file fsUpload dataBin metaYaml (some resp304)).result = none :=
  ⟨rfl, rfl⟩

/-- C4 (amended to 4xx/5xx): whenever `raise_for_status` raises,
`upload_file` raises an `APIError` carrying exactly the response's status
code, with details the parsed JSON body when the body parses as JSON and
the raw response text otherwise. -/
theorem upload_error_carries_status_and_details
    (fs : FileSystem) (dp mp : FPath) (r : HttpResponse)
    (hd : fs.pathExists dp = true) (hm : fs.pathExists mp = true)
    (hv : validateMeta fs mp = .ok ())
    (hs : raiseForStatus r.statusCode = true) :
    (upload_file fs dp mp (some r)).result =
      .error (.apiError "API returned an error" (some r.statusCode)
        (some (match r.json with
               | some j => ErrDetails.jsonDetails j
               | none => ErrDetails.textDetails r.text))) := by
  simp [upload_file, hd, hm, hv, uploadRequest, hs, respErrorDetails]

/-- C4 witness: the spec's concrete instance — a 422 response with body
`{"detail": "bad file"}` yields an `APIError` with status code 422 whose
details are that JSON object, hence include `"bad file"`. -/
theorem upload_error_carries_status_and_details_witness :
    (upload_file fsUpload dataBin metaYaml (some resp422)).result =
      .error (.apiError "API returned an error" (some 422)
        (some (ErrDetails.jsonDetails
          (.obj [("detail", .str "bad file")])))) :=
  upload_error_carries_status_and_details fsUpload dataBin metaYaml resp422
    rfl rfl rfl rfl

/-- C5: every execution of `upload_file` that issued the network request
opened exactly the two file handles (data file and metadata file) and
closed both of them, whatever the outcome of the request — the `finally`
block runs on the success, HTTP-error and network-error paths alike. -/
theorem upload_closes_both_handles
    (fs : FileSystem) (dp mp : FPath) (net : Option HttpResponse)
    (h : (upload_file fs dp mp net).networkCalls ≠ 0) :
    (upload_file fs dp mp net).openedHandles = [dp, mp] ∧
    (upload_file fs dp mp net).closedHandles = [dp, mp] := by
  by_cases hd : fs.pathExists dp = true
  · by_cases hm : fs.pathExists mp = true
    · cases hv : validateMeta fs mp with
      | error e =>
        exact absurd (by simp [upload_file, hd, hm, hv]) h
      | ok u =>
        cases u
        constructor <;> simp [upload_file, hd, hm, hv]
    · rw [Bool.not_eq_true] at hm
      exact absurd (by simp [upload_file, hd, hm]) h
  · rw [Bool.not_eq_true] at hd
    exact absurd (by simp [upload_file, hd]) h

/-- C5 witness: a concrete successful upload opened and closed exactly
the two handles. -/
theorem upload_closes_both_handles_witness :
    (upload_file fsUpload dataBin metaYaml (some resp200)).openedHandles
        = [dataBin, metaYaml] ∧
    (upload_file fsUpload dataBin metaYaml (some resp200)).closedHandles
        = [dataBin, metaYaml] :=
  upload_closes_both_handles fsUpload dataBin metaYaml (some resp200)
    (by decide)

/-- A JSON array of objects always converts back to its record list. -/
theorem toRecords_map_obj (recs : List (List (String × JsonVal))) :
    toRecords (recs.map JsonVal.obj) = some recs := by
  induction recs with
  | nil => rfl
  | cons r rs ih => simp [toRecords, ih]

/-- `indexOfCol` finds an index holding the requested column name. -/
theorem indexOfCol_getElem? (cols : List String) (c : String) (i : Nat)
    (h : indexOfCol cols c = some i) : cols[i]? = some c := by
  induction cols generalizing i with
  | nil => simp [indexOfCol] at h
  | cons x xs ih =>
    by_cases hx : x = c
    · subst hx
      simp [indexOfCol] at h
      subst h
      simp
    · simp [indexOfCol, hx] at h
      obtain ⟨j, hj, rfl⟩ := h
      simpa using ih j hj

/-- Indexing a zip of two lists at a position where both are defined. -/
theorem getElem?_zip_of_both {α β : Type} (a : List α) (b : List β) (i : Nat)
    (x : α) (y : β) (ha : a[i]? = some x) (hb : b[i]? = some y) :
    (a.zip b)[i]? = some (x, y) := by
  induction a generalizing b i with
  | nil => simp at ha
  | cons u us ih =>
    cases b with
    | nil => simp at hb
    | cons v vs =>
      cases i with
      | zero =>
        simp at ha hb
        subst ha; subst hb
        simp [List.zip]
      | succ j =>
        simp at ha hb
        simpa [List.zip] using ih vs j ha hb

/-- Coercing the date columns rewrites exactly the cells sitting under a
date column, applying `coerceCell` to the original cell. -/
theorem coerceDateColumns_cell (df : DataFrame) (ri : Nat) (c : String)
    (cv : CellVal) (hc : c ∈ dateColumns) (h : df.cell ri c = some cv) :
    (coerceDateColumns df).cell ri c = some (coerceCell cv) := by
  unfold DataFrame.cell at h ⊢
  cases hidx : indexOfCol df.columns c with
  | none => rw [hidx] at h; exact absurd h (by simp)
  | some ci =>
    rw [hidx] at h
    have hcols : (coerceDateColumns df).columns = df.columns := rfl
    rw [hcols, hidx]
    cases hrow : df.rows[ri]? with
    | none => rw [hrow] at h; exact absurd h (by simp)
    | some row =>
      rw [hrow] at h
      have hrow2 : (coerceDateColumns df).rows[ri]? = some (coerceRow df.columns row) := by
        show (df.rows.map (coerceRow df.columns))[ri]? = _
        rw [List.getElem?_map, hrow]
        rfl
      rw [hrow2]
      have hcol : df.columns[ci]? = some c := indexOfCol_getElem? _ _ _ hidx
      show (coerceRow df.columns row)[ci]? = some (coerceCell cv)
      unfold coerceRow
      rw [List.getElem?_map, getElem?_zip_of_both df.columns row ci c cv hcol h]
      simp [hc]

/-- C6: when the response carries a JSON array of records, `search_file`
never fails because of a bad date value: it returns the full result set
(one row per record, the two date columns coerced), every cell that was
under `date_conducted` or `upload_timestamp` is the coercion of the
original value, and a value the datetime parse rejects is replaced by the
`NaT` null-date marker. -/
theorem search_replaces_unparsable_dates
    (a : SearchArgs) (r : HttpResponse) (recs : List (List (String × JsonVal)))
    (hjson : r.json = some (JsonVal.arr (recs.map JsonVal.obj)))
    (hok : raiseForStatus r.statusCode = false)
    (hne : recs ≠ []) :
    search_file a (some r) = .ok (coerceDateColumns (mkDataFrame recs)) ∧
    (coerceDateColumns (mkDataFrame recs)).rows.length = recs.length ∧
    (∀ ri c cv, c ∈ dateColumns → (mkDataFrame recs).cell ri c = some cv →
      (coerceDateColumns (mkDataFrame recs)).cell ri c = some (coerceCell cv)) ∧
    (∀ s, parseIsoDate s = none →
      coerceCell (CellVal.val (JsonVal.str s)) = CellVal.natMarker) := by
  refine ⟨?_, ?_, ?_, ?_⟩
  · have htruthy : (JsonVal.arr (recs.map JsonVal.obj)).truthy = true := by
      cases recs with
      | nil => exact absurd rfl hne
      | cons x xs => simp [JsonVal.truthy]
    simp [search_file, hok, hjson, htruthy, toRecords_map_obj]
  · simp [coerceDateColumns, mkDataFrame]
  · intro ri c cv hc h
    exact coerceDateColumns_cell _ _ _ _ hc h
  · intro s hp
    simp [coerceCell, hp]

/-- Fixture for C6: a search record whose `date_conducted` is not a
date. -/
def badDateRec : List (String × JsonVal) :=
  [("date_conducted", .str "not-a-date"), ("author", .str "b")]

/-- Fixture for C6: a 200 response returning one record with the bad
date. -/
def respBadDate : HttpResponse :=
  ⟨200, "", some (.arr [JsonVal.obj badDateRec]), none, []⟩

/-- C6 witness: the spec's concrete instance — one record with
`date_conducted: "not-a-date"` yields a one-row result whose
`date_conducted` cell is the `NaT` marker, not an error. -/
theorem search_replaces_unparsable_dates_witness :
    search_file noFilters (some respBadDate)
        = .ok (coerceDateColumns (mkDataFrame [badDateRec])) ∧
    (coerceDateColumns (mkDataFrame [badDateRec])).rows.length = 1 ∧
    (coerceDateColumns (mkDataFrame [badDateRec])).cell 0 "date_conducted"
        = some CellVal.natMarker :=
  ⟨(search_replaces_unparsable_dates noFilters respBadDate [badDateRec]
      rfl rfl (by simp)).1,
   (search_replaces_unparsable_dates noFilters respBadDate [badDateRec]
      rfl rfl (by simp)).2.1,
   rfl⟩

/-- C7: when a file (or directory) already exists at the path and
`overwrite` is false, `generate_metadata_template` returns normally with
only the warning, leaves the filesystem untouched, and in particular the
existing file's content is unchanged. -/
theorem template_existing_file_untouched
    (fs : FileSystem) (p : FPath) (h : fs.pathExists p = true) :
    generate_metadata_template fs p false = ⟨fs, true⟩ ∧
    (generate_metadata_template fs p false).fs.readFile p = fs.readFile p := by
  have heq : generate_metadata_template fs p false = ⟨fs, true⟩ := by
    simp [generate_metadata_template, h]
  exact ⟨heq, by rw [heq]⟩

/-- Fixture for C7: a filesystem with an existing file at `t.yaml`. -/
def fsTemplate : FileSystem :=
  ⟨[(⟨false, ["t.yaml"]⟩, .text ["old content"])], []⟩

/-- C7 witness: with an existing `t.yaml`, template generation with
`overwrite=false` changes nothing and warns. -/
theorem template_existing_file_untouched_witness :
    generate_metadata_template fsTemplate ⟨false, ["t.yaml"]⟩ false
        = ⟨fsTemplate, true⟩ ∧
    (generate_metadata_template fsTemplate ⟨false, ["t.yaml"]⟩ false).fs.readFile
        ⟨false, ["t.yaml"]⟩ = fsTemplate.readFile ⟨false, ["t.yaml"]⟩ :=
  template_existing_file_untouched fsTemplate ⟨false, ["t.yaml"]⟩ rfl

/-- C8 counterexample: a 304 response is not a 2xx response, yet
`raise_for_status` passes, so `download_file` opens the destination and
writes the body: the destination file IS created on this non-2xx
response, refuting "for every non-2xx response no destination file is
created". -/
theorem download_non2xx_writes_file :
    is2xx resp304Body.statusCode = false ∧
    (download_file fsHome homeDir "abc" (some relDest) (some resp304Body)).fs.isFile
        relDest = true :=
  ⟨rfl, rfl⟩

/-- C8 (amended to 4xx/5xx): whenever `raise_for_status` raises,
`download_file` raises (as a generic `Exception`) before the destination
file is opened: the set of regular files is exactly the one before the
call — no destination file is created or written — though the save
directory was already created. -/
theorem download_error_no_file_written
    (fs : FileSystem) (home : FPath) (fid : String) (dest : Option FPath)
    (r : HttpResponse) (hs : raiseForStatus r.statusCode = true) :
    resultKind (download_file fs home fid dest (some r)).result
        = some ErrKind.genericErrorK ∧
    (download_file fs home fid dest (some r)).fs.files = fs.files := by
  constructor <;>
    simp [download_file, hs, FileSystem.mkdirs, resultKind, IngestError.kind]

/-- C8 witness: a concrete 404 download fails with the generic error kind
and creates no file. -/
theorem download_error_no_file_written_witness :
    resultKind (download_file fsHome homeDir "abc" (some relDest)
        (some resp404)).result = some ErrKind.genericErrorK ∧
    (download_file fsHome homeDir "abc" (some relDest) (some resp404)).fs.files
        = fsHome.files :=
  download_error_no_file_written fsHome homeDir "abc" (some relDest) resp404 rfl

/-- C9: a metadata file freshly produced by the template generator always
fails `upload_file`'s metadata validation with the configuration-error
kind (the template's `research_project_id` and `author` are empty
strings, which the validation rejects), before any network call. -/
theorem template_metadata_fails_upload
    (fs : FileSystem) (tp dp : FPath) (net : Option HttpResponse)
    (hnew : fs.pathExists tp = false)
    (hdata : ((generate_metadata_template fs tp false).fs).pathExists dp = true) :
    resultKind (upload_file (generate_metadata_template fs tp false).fs dp tp net).result
        = some ErrKind.configErrorK ∧
    (upload_file (generate_metadata_template fs tp false).fs dp tp net).networkCalls
        = 0 := by
  have hgen : (generate_metadata_template fs tp false).fs =
      (if tp.parent.components.isEmpty && !tp.parent.absolute then fs
       else fs.mkdirs tp.parent).writeFile tp (.text template_content) := by
    simp [generate_metadata_template, hnew]
  have hexists : ((generate_metadata_template fs tp false).fs).pathExists tp = true := by
    rw [hgen]; exact pathExists_writeFile _ _ _
  have hread : ((generate_metadata_template fs tp false).fs).readFile tp
      = some (.text template_content) := by
    rw [hgen]; exact readFile_writeFile _ _ _
  have hval : validateMeta (generate_metadata_template fs tp false).fs tp
      = .error (.fileConfigurationError (wrapYamlMsg requiredKeysMsg)) := by
    rw [validateMeta, hread]
    rfl
  constructor <;> simp [upload_file, hdata, hexists, hval, resultKind, IngestError.kind]

/-- Fixture for C9: the template destination `/data/template.yaml`. -/
def tmplPath : FPath := ⟨true, ["data", "template.yaml"]⟩

/-- C9 witness: generating the template into `/data/template.yaml` and
uploading `/data/a.bin` with it as metadata fails with the
configuration-error kind and zero network calls. -/
theorem template_metadata_fails_upload_witness :
    resultKind (upload_file (generate_metadata_template fsData tmplPath false).fs
        dataBin tmplPath (some resp200)).result = some ErrKind.configErrorK ∧
    (upload_file (generate_metadata_template fsData tmplPath false).fs
        dataBin tmplPath (some resp200)).networkCalls = 0 :=
  template_metadata_fails_upload fsData tmplPath dataBin (some resp200) rfl rfl

/-- C10: when no destination is given and no directory exists at
`home/Downloads`, the directory check fails both before the request
(so only the parent — the home directory — is created) and after it, so
the response body is written to a regular file literally named
`Downloads` directly under the home directory, and that path is what the
call returns. -/
theorem download_default_missing_downloads_dir
    (fs : FileSystem) (home : FPath) (fid : String) (r : HttpResponse)
    (hnd : fs.isDir (home.join "Downloads") = false)
    (hok : raiseForStatus r.statusCode = false) :
    (download_file fs home fid none (some r)).result
        = .ok (home.join "Downloads").render ∧
    (download_file fs home fid none (some r)).fs.isFile (home.join "Downloads")
        = true := by
  have hnd1 : ((fs.mkdirs (home.join "Downloads").parent).isDir (home.join "Downloads"))
      = false := by
    apply isDir_mkdirs_of_shorter
    · rw [parent_join, length_join]
      omega
    · exact hnd
  constructor <;>
    simp [download_file, hnd, hnd1, hok, isFile_writeFile]

/-- Fixture for C10: a 200 response that even carries a
`content-disposition` filename (which is ignored, since the target is not
a directory). -/
def respNamed : HttpResponse :=
  ⟨200, "", some .null, some "attachment; filename=\"f.txt\"", [9]⟩

/-- C10 witness: on a filesystem where `/home/user/Downloads` does not
exist, a destination-less download returns `/home/user/Downloads` and a
regular file now sits at that path. -/
theorem download_default_missing_downloads_dir_witness :
    (download_file fsHome homeDir "abc" none (some respNamed)).result
        = .ok (homeDir.join "Downloads").render ∧
    (download_file fsHome homeDir "abc" none (some respNamed)).fs.isFile
        (homeDir.join "Downloads") = true :=
  download_default_missing_downloads_dir fsHome homeDir "abc" respNamed rfl rfl

end DataIngestion
